import Mathlib

/-!
Verification of the onvifsnapshot repository.

The repository holds three variants of the same Node/Express camera-snapshot
server:
  * `src/unnamed/part_000` — push variant with connect/disconnect client
    tracking, a recurring poll timer, snapshot routes that lazily start
    polling, and a periodic inactivity check;
  * `src/server.js`       — push variant with connect/disconnect only;
  * `src/unnamed/part_001` — on-demand variant (one acquisition per request).

The fetchers (`getSnapshotDirect`, `getSnapshotONVIF`), the fallback chain
(`pollSnapshot` / `getSnapshot`), `initializeDevice` and `serveSnapshot` are
textually identical across the files that contain them, so they are embedded
once below.  External I/O (the camera's HTTP responses, the ONVIF protocol
exchange, file-write success) is supplied through explicit environment
records; the snapshot file on disk is modelled as the history of writes it
received, so that "the Store was left untouched" is exactly "the history is
unchanged" and `read` returns the last write.  Observable actions (log lines,
the outgoing HTTP request, the ONVIF protocol call, each `fs.writeFile`, each
HTTP response) are recorded in an event trace.
-/

namespace OnvifSnapshot

/-- Image bytes (the JPEG payload), abstracted as a list of bytes. -/
abbrev Bytes := List Nat

/-- Which function performed an `fs.writeFile(SNAPSHOT_PATH, …)`.
`coordinator` is in the vocabulary because the spec claims the Acquisition
Coordinator performs the write; the embedding shows it never does. -/
inductive Writer where
  | direct
  | onvif
  | coordinator
deriving DecidableEq, Repr

/-- Observable events, in execution order. -/
inductive Event where
  /-- `pollSnapshot` / `getSnapshot` was invoked (the "Polling snapshot..." /
  "Getting snapshot on demand..." log line at the top of the chain). -/
  | acquireStart
  /-- `getSnapshotDirect` issued its `axios.get` to the vendor endpoint. -/
  | directAttempt
  /-- `getSnapshotONVIF` found `device` null and resolved false immediately
  (the "ONVIF device not initialized" log line). -/
  | onvifNoDevice
  /-- `getSnapshotONVIF` called `device.fetchSnapshot` (the protocol's
  snapshot-retrieval operation). -/
  | onvifProtocolOp
  /-- A successful `fs.writeFile(SNAPSHOT_PATH, b)` performed by `w`. -/
  | storeWrite (w : Writer) (b : Bytes)
  /-- An HTTP response was produced: image bytes, or an error status. -/
  | respondImage (b : Bytes)
  | respondError (status : Nat)
deriving DecidableEq, Repr

/-- Is the event an effect of `getSnapshotONVIF`?  Used to state that the
ONVIF strategy was (not) attempted. -/
def Event.isOnvif : Event → Bool
  | .onvifNoDevice => true
  | .onvifProtocolOp => true
  | .storeWrite .onvif _ => true
  | _ => false

/-- The snapshot file `SNAPSHOT_PATH`, modelled by the sequence of byte
payloads successfully written to it (oldest first).  A read sees the last
completed write; per the spec's atomicity invariant a failed write leaves
the file untouched. -/
structure Store where
  writes : List Bytes
deriving DecidableEq, Repr

/-- `fs.writeFile(SNAPSHOT_PATH, b)` succeeding: the history grows by `b`. -/
def Store.write (s : Store) (b : Bytes) : Store :=
  ⟨s.writes ++ [b]⟩

/-- `fs.readFile(SNAPSHOT_PATH)`: the last successful write, or `none`
(NotFound — the file is absent because nothing was ever written, or the
backing resource is unavailable). -/
def Store.read (s : Store) : Option Bytes :=
  s.writes.getLast?

/-- The empty store: no snapshot has ever been written. -/
def Store.empty : Store := ⟨[]⟩

theorem Store.write_ne (s : Store) (b : Bytes) : s.write b ≠ s := by
  intro h
  have hlen : (s.write b).writes.length = s.writes.length := by rw [h]
  simp [Store.write] at hlen

/-- Outcome of one fetch attempt or of the fallback chain: the boolean the
function resolves with, the store after its effects, and its event trace. -/
structure FetchOut where
  ok : Bool
  store : Store
  trace : List Event
deriving DecidableEq, Repr

/-- External outcome of the single `axios.get` in `getSnapshotDirect`:
`some body` when the request returns 2xx within the timeout, `none` when
axios throws (timeout, non-2xx status, transport error).  `writeOk` is
whether the subsequent `fs.writeFile` succeeds. -/
structure DirectEnv where
  response : Option Bytes
  writeOk : Bool
deriving DecidableEq, Repr

/-- External outcome of `device.fetchSnapshot` in `getSnapshotONVIF`:
`none` when the callback receives an error, otherwise the response's
content-type header and body.  `writeOk` as in `DirectEnv`. -/
structure OnvifEnv where
  fetchResult : Option (String × Bytes)
  writeOk : Bool
deriving DecidableEq, Repr

/-- The module-level `device` object created by `initializeDevice`.
`initialized` records whether `device.init` completed without error. -/
structure OnvifDevice where
  initialized : Bool
deriving DecidableEq, Repr

/-- `initializeDevice()` (part_000 lines 66–83; identical in server.js and
part_001).  The assignment `device = new onvif.OnvifDevice({...})` happens
before `device.init` runs its callback, so the module-level `device`
variable is non-null afterwards even when `init` reports an error and the
returned promise rejects. -/
def initializeDevice (initOk : Bool) (_device : Option OnvifDevice) :
    Except Unit Unit × Option OnvifDevice :=
  ((if initOk then .ok () else .error ()), some ⟨initOk⟩)

/-- `getSnapshotDirect()` (part_000 lines 86–110; identical in server.js
lines 60–81 and part_001 lines 77–101).  Issues one GET; on success writes
the body to `SNAPSHOT_PATH` and resolves `true`; any thrown error (request
failure or write failure) is caught and resolves `false`. -/
def getSnapshotDirect (env : DirectEnv) (s : Store) : FetchOut :=
  match env.response with
  | none => ⟨false, s, [.directAttempt]⟩
  | some b =>
      if env.writeOk then
        ⟨true, s.write b, [.directAttempt, .storeWrite .direct b]⟩
      else
        ⟨false, s, [.directAttempt]⟩

/-- `getSnapshotONVIF()` (part_000 lines 113–145; identical in server.js
lines 84–110 and part_001 lines 104–136).  If `device` is null it resolves
`false` immediately without calling `device.fetchSnapshot`; otherwise it
issues the protocol operation, accepts only `image/jpeg` responses, writes
the body and resolves `true`, resolving `false` on protocol error,
content-type mismatch, or write failure. -/
def getSnapshotONVIF (device : Option OnvifDevice) (env : OnvifEnv)
    (s : Store) : FetchOut :=
  match device with
  | none => ⟨false, s, [.onvifNoDevice]⟩
  | some _ =>
      match env.fetchResult with
      | none => ⟨false, s, [.onvifProtocolOp]⟩
      | some (ct, b) =>
          if ct = "image/jpeg" then
            if env.writeOk then
              ⟨true, s.write b, [.onvifProtocolOp, .storeWrite .onvif b]⟩
            else
              ⟨false, s, [.onvifProtocolOp]⟩
          else
            ⟨false, s, [.onvifProtocolOp]⟩

/-- The per-acquisition external environment: one direct attempt's outcome
and one ONVIF attempt's outcome. -/
structure AcquireEnv where
  direct : DirectEnv
  onvif : OnvifEnv
deriving DecidableEq, Repr

/-- The shared fallback chain
`const success = await getSnapshotDirect() || await getSnapshotONVIF();`
(part_000 line 151, part_001 line 142, server.js line 115): JavaScript `||`
short-circuits, so `getSnapshotONVIF` runs only when the direct fetch
resolved `false`. -/
def snapshotChain (device : Option OnvifDevice) (env : AcquireEnv)
    (s : Store) : FetchOut :=
  let d := getSnapshotDirect env.direct s
  if d.ok then d
  else
    let o := getSnapshotONVIF device env.onvif d.store
    ⟨o.ok, o.store, d.trace ++ o.trace⟩

/-- `getSnapshot()` (part_001 lines 139–147): runs the chain and returns
`success`. -/
def getSnapshot (device : Option OnvifDevice) (env : AcquireEnv)
    (s : Store) : FetchOut :=
  let out := snapshotChain device env s
  ⟨out.ok, out.store, .acquireStart :: out.trace⟩

/-- `pollSnapshot()` (part_000 lines 148–155; server.js lines 113–116): runs
the same chain but returns nothing to its caller (the internal `success`
value is only logged), so only the store and the trace are produced. -/
def pollSnapshot (device : Option OnvifDevice) (env : AcquireEnv)
    (s : Store) : Store × List Event :=
  let success := snapshotChain device env s
  (success.store, .acquireStart :: success.trace)

/-- Body of an HTTP response: raw bytes, or a small JSON object with an
`error` field. -/
inductive ResponseBody where
  | imageBytes (b : Bytes)
  | jsonError (msg : String)
deriving DecidableEq, Repr

/-- An HTTP response as assembled by the handlers: status code, headers set
via `res.set`, and the body. -/
structure HttpResponse where
  status : Nat
  headers : List (String × String)
  body : ResponseBody
deriving DecidableEq, Repr

/-- `serveSnapshot(res)` (part_000 lines 32–44; identical in part_001
lines 24–36): read `SNAPSHOT_PATH`; on success send the bytes with
`image/jpeg` and the four no-cache headers and status 200 (Express default);
on read failure send `res.status(500).json({ error: 'Snapshot not
available' })`. -/
def serveSnapshot (s : Store) : HttpResponse :=
  match s.read with
  | some data =>
      { status := 200
        headers :=
          [("Content-Type", "image/jpeg"),
           ("Cache-Control", "no-store, no-cache, must-revalidate, proxy-revalidate"),
           ("Pragma", "no-cache"),
           ("Expires", "0")]
        body := .imageBytes data }
  | none =>
      { status := 500
        headers := []
        body := .jsonError "Snapshot not available" }

/-- The trace event corresponding to sending a response. -/
def responseEvent (r : HttpResponse) : Event :=
  match r.body with
  | .imageBytes b => .respondImage b
  | .jsonError _ => .respondError r.status

/-- On-demand variant, `app.get('/snapshot.jpg')` (part_001 lines 39–42):
`await getSnapshot(); await serveSnapshot(res);`. -/
def onDemandSnapshotJpgRoute (device : Option OnvifDevice)
    (env : AcquireEnv) (s : Store) : Store × List Event × HttpResponse :=
  let out := getSnapshot device env s
  let resp := serveSnapshot out.store
  (out.store, out.trace ++ [responseEvent resp], resp)

/-- On-demand variant, `app.get('/snapshot/:name.jpg')` (part_001 lines
185–188): same body as the fixed route. -/
def onDemandSnapshotNamedRoute (device : Option OnvifDevice)
    (env : AcquireEnv) (s : Store) : Store × List Event × HttpResponse :=
  let out := getSnapshot device env s
  let resp := serveSnapshot out.store
  (out.store, out.trace ++ [responseEvent resp], resp)

/-!
Push-variant state machine (part_000; `src/server.js` is the same machine
restricted to the connect/disconnect inputs — its `startPolling`,
`stopPolling`, `/connect` and `/disconnect` handlers are textually
identical, and it has no snapshot routes and no inactivity check).

Module-level mutable state: `connectedClients` (a JS number, hence `Int` —
its non-negativity is a property to prove, not a typing assumption),
`pollingInterval` (null or the `setInterval` handle), `lastSnapshotRequest`
(a `Date.now()` millisecond timestamp, 0 initially).  `activeTimers` models
the Node runtime's set of live interval timers created by `startPolling`:
`setInterval` registers a fresh handle, `clearInterval` removes it, and a
timer callback can only fire for a registered handle.  `nextTimerId`
supplies fresh handles.
-/

structure ServerState where
  connectedClients : Int
  pollingInterval : Option Nat
  lastSnapshotRequest : Int
  nextTimerId : Nat
  activeTimers : List Nat
  store : Store
deriving DecidableEq, Repr

/-- Process start: no clients, no timer, `lastSnapshotRequest = 0`, no
snapshot written yet. -/
def initialState : ServerState :=
  { connectedClients := 0
    pollingInterval := none
    lastSnapshotRequest := 0
    nextTimerId := 0
    activeTimers := []
    store := Store.empty }

/-- `startPolling()` (part_000 lines 158–173; server.js lines 119–128):
if a timer is already registered, return at once; otherwise run one
`pollSnapshot()` synchronously, then register the recurring interval. -/
def startPolling (device : Option OnvifDevice) (env : AcquireEnv)
    (s : ServerState) : ServerState × List Event :=
  match s.pollingInterval with
  | some _ => (s, [])
  | none =>
      let (st, tr) := pollSnapshot device env s.store
      ({ s with
          store := st
          pollingInterval := some s.nextTimerId
          activeTimers := s.nextTimerId :: s.activeTimers
          nextTimerId := s.nextTimerId + 1 }, tr)

/-- `stopPolling()` (part_000 lines 176–182; server.js lines 131–137):
if no timer is registered, return at once; otherwise `clearInterval` it and
null the handle. -/
def stopPolling (s : ServerState) : ServerState × List Event :=
  match s.pollingInterval with
  | none => (s, [])
  | some id =>
      ({ s with
          pollingInterval := none
          activeTimers := s.activeTimers.filter (fun t => t ≠ id) }, [])

/-- Inputs that drive the push-variant machine.  Each carries the external
data its handler consumes: the fetch environment for inputs that may run an
acquisition, `Date.now()` for inputs that read the clock. -/
inductive Input where
  /-- `GET /connect` (part_000 lines 193–203; server.js lines 148–157). -/
  | connect (env : AcquireEnv)
  /-- `GET /disconnect` (part_000 lines 206–215; server.js lines 160–169). -/
  | disconnect
  /-- `GET /snapshot.jpg` or `GET /snapshot/:name.jpg` (part_000 lines
  47–51 and 248–252; the two handlers are textually identical). -/
  | snapshotRequest (now : Int) (env : AcquireEnv)
  /-- The interval callback `pollSnapshot()` firing for timer handle `id`
  (part_000 lines 169–171; server.js line 127). -/
  | timerTick (id : Nat) (env : AcquireEnv)
  /-- One run of the periodic inactivity check (part_000 lines 255–261). -/
  | inactivityCheck (now : Int)

/-- One step of the push-variant machine under the SERIALIZED semantics:
each handler — including the `await pollSnapshot()` inside `startPolling` —
runs to completion before the next input is processed.  This is the
behaviour when no two activations overlap.  The event-loop refinement
`astep` below additionally models the suspension point inside
`startPolling`, where the source lets other handlers interleave.
`timeout` is the configured `INACTIVITY_TIMEOUT`. -/
def step (device : Option OnvifDevice) (timeout : Int)
    (s : ServerState) : Input → ServerState × List Event
  | .connect env =>
      let s1 := { s with connectedClients := s.connectedClients + 1 }
      if s1.connectedClients = 1 then startPolling device env s1
      else (s1, [])
  | .disconnect =>
      let s1 := { s with connectedClients := max 0 (s.connectedClients - 1) }
      if s1.connectedClients = 0 then stopPolling s1
      else (s1, [])
  | .snapshotRequest now env =>
      let s1 := { s with lastSnapshotRequest := now }
      let (s2, tr) :=
        match s1.pollingInterval with
        | none => startPolling device env s1
        | some _ => (s1, [])
      let resp := serveSnapshot s2.store
      (s2, tr ++ [responseEvent resp])
  | .timerTick id env =>
      if id ∈ s.activeTimers then
        let (st, tr) := pollSnapshot device env s.store
        ({ s with store := st }, tr)
      else (s, [])
  | .inactivityCheck now =>
      if s.pollingInterval.isSome ∧ now - s.lastSnapshotRequest > timeout
          ∧ s.connectedClients = 0 then
        stopPolling s
      else (s, [])

/-- States reachable from process start under any sequence of inputs, each
handler run to completion (serialized, non-overlapping activations). -/
inductive Reachable (device : Option OnvifDevice) (timeout : Int) :
    ServerState → Prop where
  | init : Reachable device timeout initialState
  | step {s : ServerState} (i : Input) :
      Reachable device timeout s →
      Reachable device timeout (step device timeout s i).1

/-!
Event-loop refinement of the push variant.

JavaScript runs each code segment between `await`s atomically, but
suspends at every `await` and lets other handlers run.  `startPolling`
(part_000 lines 158–173; server.js lines 119–128) checks
`if (pollingInterval)` at line 159, then `await pollSnapshot()` at
line 166 — a suspension point — and only after resuming assigns
`pollingInterval = setInterval(...)` at line 169.  A second activation
arriving during that suspension (another snapshot request at part_000
lines 47–51 / 248–252, or a connect at lines 193–203) still sees
`pollingInterval === null`, passes the guard, and suspends too; each
resumption then registers its own interval and overwrites the shared
handle, so the earlier interval stays live with no stored handle to
`clearInterval`.  `AsyncState` extends the serialized state with
`pendingStarts`, the number of `startPolling` activations currently
suspended at line 166; `astep` runs one atomic segment.  Handler work
after the timer logic (serving the response, `res.json`) touches no
timer state and is omitted from the refinement's traces.
-/

structure AsyncState where
  base : ServerState
  pendingStarts : Nat
deriving DecidableEq, Repr

/-- Atomic segments of the push-variant handlers. -/
inductive AsyncInput where
  /-- `GET /connect` up to `startPolling`'s guard: `connectedClients++`,
  and if the count is 1, enter `startPolling`; if the guard finds no
  registered handle the activation suspends at `await pollSnapshot()`. -/
  | connectBegin
  /-- `GET /disconnect`: synchronous (no `await` before `res.json`). -/
  | disconnect
  /-- A snapshot route up to `startPolling`'s guard: update
  `lastSnapshotRequest`, and if no handle is registered, enter
  `startPolling` and suspend at `await pollSnapshot()`. -/
  | snapshotRequestBegin (now : Int)
  /-- One suspended `startPolling` activation resumes: its
  `pollSnapshot()` completes with outcome `env`, then — with no re-check
  of the guard — `pollingInterval = setInterval(...)` registers a fresh
  interval and overwrites the handle (part_000 lines 166–172). -/
  | startPollingResume (env : AcquireEnv)
  /-- The interval callback firing for a live timer handle. -/
  | timerTick (id : Nat) (env : AcquireEnv)
  /-- One run of the periodic inactivity check (synchronous). -/
  | inactivityCheck (now : Int)

/-- One atomic segment of the event-loop refinement. -/
def astep (device : Option OnvifDevice) (timeout : Int)
    (s : AsyncState) : AsyncInput → AsyncState × List Event
  | .connectBegin =>
      let b1 := { s.base with connectedClients := s.base.connectedClients + 1 }
      if b1.connectedClients = 1 then
        match b1.pollingInterval with
        | some _ => (⟨b1, s.pendingStarts⟩, [])
        | none => (⟨b1, s.pendingStarts + 1⟩, [])
      else (⟨b1, s.pendingStarts⟩, [])
  | .disconnect =>
      let b1 := { s.base with
        connectedClients := max 0 (s.base.connectedClients - 1) }
      if b1.connectedClients = 0 then
        (⟨(stopPolling b1).1, s.pendingStarts⟩, (stopPolling b1).2)
      else (⟨b1, s.pendingStarts⟩, [])
  | .snapshotRequestBegin now =>
      let b1 := { s.base with lastSnapshotRequest := now }
      match b1.pollingInterval with
      | some _ => (⟨b1, s.pendingStarts⟩, [])
      | none => (⟨b1, s.pendingStarts + 1⟩, [])
  | .startPollingResume env =>
      match s.pendingStarts with
      | 0 => (s, [])
      | n + 1 =>
          let (st, tr) := pollSnapshot device env s.base.store
          (⟨{ s.base with
                store := st
                pollingInterval := some s.base.nextTimerId
                activeTimers := s.base.nextTimerId :: s.base.activeTimers
                nextTimerId := s.base.nextTimerId + 1 }, n⟩, tr)
  | .timerTick id env =>
      if id ∈ s.base.activeTimers then
        let (st, tr) := pollSnapshot device env s.base.store
        (⟨{ s.base with store := st }, s.pendingStarts⟩, tr)
      else (s, [])
  | .inactivityCheck now =>
      if s.base.pollingInterval.isSome = true ∧
          now - s.base.lastSnapshotRequest > timeout ∧
          s.base.connectedClients = 0 then
        (⟨(stopPolling s.base).1, s.pendingStarts⟩, (stopPolling s.base).2)
      else (s, [])

/-- Run a sequence of atomic segments. -/
def arun (device : Option OnvifDevice) (timeout : Int)
    (s : AsyncState) : List AsyncInput → AsyncState
  | [] => s
  | i :: rest => arun device timeout (astep device timeout s i).1 rest

/-- States reachable from process start under the event-loop
refinement: any interleaving of handler segments. -/
inductive AsyncReachable (device : Option OnvifDevice) (timeout : Int) :
    AsyncState → Prop where
  | init : AsyncReachable device timeout ⟨initialState, 0⟩
  | step {s : AsyncState} (i : AsyncInput) :
      AsyncReachable device timeout s →
      AsyncReachable device timeout (astep device timeout s i).1

/-- The racing interleaving: two snapshot requests arrive while no handle
is registered (both pass `startPolling`'s guard and suspend), then the two
suspended activations resume in arrival order, each registering its own
interval.  Both acquisitions fail here; the race is independent of the
fetch outcomes. -/
def raceInputs : List AsyncInput :=
  [.snapshotRequestBegin 1, .snapshotRequestBegin 2,
   .startPollingResume ⟨⟨none, true⟩, none, true⟩,
   .startPollingResume ⟨⟨none, true⟩, none, true⟩]

/-- The state the racing interleaving reaches from process start. -/
def raceState : AsyncState := arun none 30000 ⟨initialState, 0⟩ raceInputs

/-!  Theorems  -/

/-- Failing direct fetch leaves the store untouched. -/
theorem getSnapshotDirect_fail_store (env : DirectEnv) (s : Store)
    (h : (getSnapshotDirect env s).ok = false) :
    (getSnapshotDirect env s).store = s := by
  unfold getSnapshotDirect at *
  rcases env with ⟨_ | b, w⟩
  · rfl
  · cases w <;> simp_all

/-- Failing ONVIF fetch leaves the store untouched. -/
theorem getSnapshotONVIF_fail_store (device : Option OnvifDevice)
    (env : OnvifEnv) (s : Store)
    (h : (getSnapshotONVIF device env s).ok = false) :
    (getSnapshotONVIF device env s).store = s := by
  unfold getSnapshotONVIF at *
  rcases device with _ | d
  · rfl
  · rcases env with ⟨_ | ⟨ct, b⟩, w⟩
    · rfl
    · by_cases hct : ct = "image/jpeg" <;> cases w <;> simp_all

/-- Whether the ONVIF fetch resolves `true` does not depend on the store it
starts from. -/
theorem getSnapshotONVIF_ok_indep (device : Option OnvifDevice)
    (env : OnvifEnv) (s s' : Store) :
    (getSnapshotONVIF device env s).ok = (getSnapshotONVIF device env s').ok := by
  unfold getSnapshotONVIF
  rcases device with _ | d
  · rfl
  · rcases env with ⟨_ | ⟨ct, b⟩, w⟩
    · rfl
    · by_cases hct : ct = "image/jpeg" <;> cases w <;> simp_all

@[simp]
theorem Store.write_eq_self_iff (s : Store) (b : Bytes) :
    s.write b = s ↔ False := by
  simp only [iff_false]
  exact Store.write_ne s b

/-- C1.  For every execution of an acquisition (`pollSnapshot` /
`getSnapshot`), it resolves `true` and the Snapshot Store is updated iff at
least one of the direct/ONVIF fetches succeeds, and it resolves `false`
with the Store left untouched iff both fail: the stored history is
unchanged exactly when the result is `false`, and on `true` the history is
extended by the successfully fetched bytes.  `pollSnapshot` has the same
store effect (it merely discards the boolean). -/
theorem acquire_true_iff_store_updated (device : Option OnvifDevice)
    (env : AcquireEnv) (s : Store) :
    ((getSnapshot device env s).ok = true ↔
        (getSnapshotDirect env.direct s).ok = true ∨
        (getSnapshotONVIF device env.onvif s).ok = true) ∧
    ((getSnapshot device env s).store = s ↔
        (getSnapshot device env s).ok = false) ∧
    ((getSnapshot device env s).ok = true →
        ∃ b, (getSnapshot device env s).store = s.write b) ∧
    (pollSnapshot device env s).1 = (getSnapshot device env s).store := by
  obtain ⟨⟨dr, dw⟩, onr, onw⟩ := env
  refine ⟨?_, ?_, ?_, rfl⟩ <;>
    rcases dr with _ | db <;>
    rcases device with _ | dev <;>
    rcases onr with _ | ⟨ct, ob⟩ <;>
    cases dw <;> cases onw <;>
    simp [getSnapshot, snapshotChain, getSnapshotDirect, getSnapshotONVIF,
      pollSnapshot] <;>
    split_ifs <;>
    simp_all

/-- C2.  For every call to the acquisition operation, the direct fetch is
attempted before the ONVIF fetch — the trace begins with the acquisition
marker followed immediately by the direct attempt, so every ONVIF event is
strictly later — and when the direct fetch succeeds no ONVIF event occurs
at all (strict short-circuit fallback).  Both `getSnapshot` and
`pollSnapshot` produce this trace. -/
theorem direct_attempted_before_onvif (device : Option OnvifDevice)
    (env : AcquireEnv) (s : Store) :
    (∃ rest, (getSnapshot device env s).trace =
        .acquireStart :: .directAttempt :: rest ∧
      (pollSnapshot device env s).2 =
        .acquireStart :: .directAttempt :: rest) ∧
    ((getSnapshotDirect env.direct s).ok = true →
      ∀ e ∈ (getSnapshot device env s).trace, e.isOnvif = false) := by
  obtain ⟨⟨dr, dw⟩, onr, onw⟩ := env
  constructor
  · rcases dr with _ | db <;>
      rcases device with _ | dev <;>
      rcases onr with _ | ⟨ct, ob⟩ <;>
      cases dw <;> cases onw <;>
      simp [getSnapshot, snapshotChain, getSnapshotDirect, getSnapshotONVIF,
        pollSnapshot] <;>
      split_ifs <;> simp
  · rcases dr with _ | db <;> cases dw <;>
      simp [getSnapshot, snapshotChain, getSnapshotDirect, Event.isOnvif]

/-- Witness for C2: with a direct fetch that succeeds (body `[7]`, write ok)
and an ONVIF environment that would also succeed, the trace is the
acquisition marker, the direct attempt and the direct store write, and no
ONVIF event occurs. -/
theorem direct_attempted_before_onvif_witness :
    (∃ rest,
        (getSnapshot (some ⟨true⟩)
          ⟨⟨some [7], true⟩, some ("image/jpeg", [9]), true⟩
          Store.empty).trace = .acquireStart :: .directAttempt :: rest ∧
        (pollSnapshot (some ⟨true⟩)
          ⟨⟨some [7], true⟩, some ("image/jpeg", [9]), true⟩
          Store.empty).2 = .acquireStart :: .directAttempt :: rest) ∧
    ((getSnapshotDirect ⟨some [7], true⟩ Store.empty).ok = true →
      ∀ e ∈ (getSnapshot (some ⟨true⟩)
          ⟨⟨some [7], true⟩, some ("image/jpeg", [9]), true⟩
          Store.empty).trace, e.isOnvif = false) :=
  direct_attempted_before_onvif (some ⟨true⟩)
    ⟨⟨some [7], true⟩, some ("image/jpeg", [9]), true⟩ Store.empty

/-- C3 counterexample.  The claim reads the spec's "absent DeviceSession"
as covering the case where session initialization was attempted and failed.
In the code, `initializeDevice` assigns the module-level `device` before
`device.init` runs, so after a failed initialization `device` is non-null:
the `if (!device)` guard in `getSnapshotONVIF` does not fire and the
protocol operation `device.fetchSnapshot` IS issued.  Concretely: after
`initializeDevice` rejects, an ONVIF fetch whose protocol exchange errors
out produces the trace `[onvifProtocolOp]` — a protocol operation was
issued, contradicting the claim. -/
theorem onvif_fetch_after_failed_init_issues_protocol_op :
    (initializeDevice false none).1 = Except.error () ∧
    (initializeDevice false none).2 = some ⟨false⟩ ∧
    (getSnapshotONVIF (initializeDevice false none).2
      ⟨none, true⟩ Store.empty).ok = false ∧
    (getSnapshotONVIF (initializeDevice false none).2
      ⟨none, true⟩ Store.empty).trace = [Event.onvifProtocolOp] :=
  ⟨rfl, rfl, rfl, rfl⟩

/-- C3 amended.  When the device reference is null — which happens only
when initialization was never attempted, since a failed `initializeDevice`
still leaves the reference non-null — the ONVIF fetch returns Failure
immediately, leaves the store untouched, and issues no protocol operation;
after a failed initialization attempt the reference is non-null, so the
guard does not cover that case. -/
theorem onvif_no_device_immediate_failure (env : OnvifEnv) (s : Store) :
    getSnapshotONVIF none env s = ⟨false, s, [Event.onvifNoDevice]⟩ ∧
    Event.onvifProtocolOp ∉ (getSnapshotONVIF none env s).trace ∧
    (∀ d : Option OnvifDevice, (initializeDevice false d).2 = some ⟨false⟩) := by
  refine ⟨rfl, ?_, fun d => rfl⟩
  simp [getSnapshotONVIF]

/-- C4 counterexample.  The claim says neither fetcher writes to the
Snapshot Store itself.  In the code each fetcher performs the
`fs.writeFile` itself: a successful direct fetch of body `[7]` run by
`getSnapshotDirect` alone already extends the store and its own trace
contains the store-write event; likewise a successful ONVIF fetch run by
`getSnapshotONVIF` alone. -/
theorem fetchers_write_store_themselves :
    (getSnapshotDirect ⟨some [7], true⟩ Store.empty).store ≠ Store.empty ∧
    Event.storeWrite .direct [7] ∈
      (getSnapshotDirect ⟨some [7], true⟩ Store.empty).trace ∧
    (getSnapshotONVIF (some ⟨true⟩) ⟨some ("image/jpeg", [9]), true⟩
      Store.empty).store ≠ Store.empty ∧
    Event.storeWrite .onvif [9] ∈
      (getSnapshotONVIF (some ⟨true⟩) ⟨some ("image/jpeg", [9]), true⟩
        Store.empty).trace := by
  refine ⟨?_, ?_, ?_, ?_⟩ <;>
    simp [getSnapshotDirect, getSnapshotONVIF, Store.write, Store.empty]

/-- C4 amended.  The store write is co-located inside each fetcher: on
success the fetcher itself writes the bytes, and the coordinator
(`pollSnapshot` / `getSnapshot`) performs no store write of its own — every
store-write event in an acquisition trace is tagged with a fetcher, never
with the coordinator, and the coordinator contributes only the acquisition
marker to the trace. -/
theorem store_writes_only_inside_fetchers (device : Option OnvifDevice)
    (env : AcquireEnv) (s : Store) :
    (∀ w b, Event.storeWrite w b ∈ (getSnapshot device env s).trace →
        w = .direct ∨ w = .onvif) ∧
    (∀ w b, Event.storeWrite w b ∈ (pollSnapshot device env s).2 →
        w = .direct ∨ w = .onvif) ∧
    ((getSnapshot device env s).trace =
      .acquireStart :: (snapshotChain device env s).trace) := by
  obtain ⟨⟨dr, dw⟩, onr, onw⟩ := env
  refine ⟨?_, ?_, rfl⟩ <;>
  · intro w b hw
    revert hw
    rcases dr with _ | db <;>
      rcases device with _ | dev <;>
      rcases onr with _ | ⟨ct, ob⟩ <;>
      cases dw <;> cases onw <;>
      simp [getSnapshot, snapshotChain, getSnapshotDirect, getSnapshotONVIF,
        pollSnapshot] <;>
      (try split_ifs) <;> (try simp) <;> intros <;> subst_vars <;> simp

/-- The fallback chain's own trace never contains the acquisition marker:
only `pollSnapshot` / `getSnapshot` prepend it. -/
theorem snapshotChain_no_acquireStart (device : Option OnvifDevice)
    (env : AcquireEnv) (s : Store) :
    Event.acquireStart ∉ (snapshotChain device env s).trace := by
  obtain ⟨⟨dr, dw⟩, onr, onw⟩ := env
  rcases dr with _ | db <;>
    rcases device with _ | dev <;>
    rcases onr with _ | ⟨ct, ob⟩ <;>
    cases dw <;> cases onw <;>
    simp [snapshotChain, getSnapshotDirect, getSnapshotONVIF] <;>
    split_ifs <;> simp

/-- An acquisition's trace contains the marker exactly once. -/
theorem pollSnapshot_trace_count (device : Option OnvifDevice)
    (env : AcquireEnv) (s : Store) :
    (pollSnapshot device env s).2.count Event.acquireStart = 1 ∧
    (getSnapshot device env s).trace.count Event.acquireStart = 1 := by
  have h := snapshotChain_no_acquireStart device env s
  have hc : (snapshotChain device env s).trace.count Event.acquireStart = 0 :=
    List.count_eq_zero.mpr h
  constructor <;> simp [pollSnapshot, getSnapshot, hc]

/-- `startPolling` does not touch the client counter. -/
theorem startPolling_clients (device : Option OnvifDevice)
    (env : AcquireEnv) (s : ServerState) :
    (startPolling device env s).1.connectedClients = s.connectedClients := by
  unfold startPolling
  rcases s with ⟨c, _ | id, last, nid, at_, st⟩ <;> rfl

/-- `stopPolling` does not touch the client counter. -/
theorem stopPolling_clients (s : ServerState) :
    (stopPolling s).1.connectedClients = s.connectedClients := by
  unfold stopPolling
  rcases s with ⟨c, _ | id, last, nid, at_, st⟩ <;> rfl

/-- After a `connect` step the client counter has grown by one. -/
theorem step_clients_connect (device : Option OnvifDevice) (timeout : Int)
    (s : ServerState) (env : AcquireEnv) :
    (step device timeout s (.connect env)).1.connectedClients =
      s.connectedClients + 1 := by
  simp only [step]
  split_ifs with h1
  · rw [startPolling_clients]
  · rfl

/-- After a `disconnect` step the client counter is the old one minus one,
clamped at zero (`Math.max(0, connectedClients - 1)`). -/
theorem step_clients_disconnect (device : Option OnvifDevice)
    (timeout : Int) (s : ServerState) :
    (step device timeout s .disconnect).1.connectedClients =
      max 0 (s.connectedClients - 1) := by
  simp only [step]
  split_ifs with h1
  · rw [stopPolling_clients]
  · rfl

/-- The snapshot routes, the timer callback and the inactivity check leave
the client counter unchanged. -/
theorem step_clients_other (device : Option OnvifDevice) (timeout : Int)
    (s : ServerState) (now : Int) (id : Nat) (env : AcquireEnv) :
    (step device timeout s (.snapshotRequest now env)).1.connectedClients =
      s.connectedClients ∧
    (step device timeout s (.timerTick id env)).1.connectedClients =
      s.connectedClients ∧
    (step device timeout s (.inactivityCheck now)).1.connectedClients =
      s.connectedClients := by
  refine ⟨?_, ?_, ?_⟩
  · simp only [step]
    rcases h : s.pollingInterval with _ | tid
    · simp only [h]
      rw [startPolling_clients]
    · simp [h]
  · simp only [step]
    split_ifs with h <;> rfl
  · simp only [step]
    split_ifs with h
    · rw [stopPolling_clients]
    · rfl

/-- Non-negativity of the client counter is preserved by every step, hence
holds in every reachable state. -/
theorem reachable_clients_nonneg (device : Option OnvifDevice)
    (timeout : Int) (s : ServerState)
    (h : Reachable device timeout s) : 0 ≤ s.connectedClients := by
  induction h with
  | init => simp [initialState]
  | @step t i h ih =>
      cases i with
      | connect env => rw [step_clients_connect]; omega
      | disconnect => rw [step_clients_disconnect]; omega
      | snapshotRequest now env =>
          rw [(step_clients_other device timeout t now 0 env).1]; exact ih
      | timerTick id env =>
          rw [(step_clients_other device timeout t 0 id env).2.1]; exact ih
      | inactivityCheck now =>
          rw [(step_clients_other device timeout t now 0
            ⟨⟨none, true⟩, none, true⟩).2.2]
          exact ih

/-- The timer bookkeeping is consistent: either no handle is stored and no
interval timer is live, or exactly the stored handle is live. -/
def timersOk (s : ServerState) : Prop :=
  (s.pollingInterval = none ∧ s.activeTimers = []) ∨
  (∃ id, s.pollingInterval = some id ∧ s.activeTimers = [id])

/-- `timersOk` only looks at the timer fields. -/
theorem timersOk_of_fields {s t : ServerState} (h : timersOk s)
    (hp : t.pollingInterval = s.pollingInterval)
    (ha : t.activeTimers = s.activeTimers) : timersOk t := by
  unfold timersOk at *
  rw [hp, ha]
  exact h

theorem timersOk_startPolling (device : Option OnvifDevice)
    (env : AcquireEnv) (s : ServerState) (h : timersOk s) :
    timersOk (startPolling device env s).1 := by
  rcases hp : s.pollingInterval with _ | id
  · rcases hps : pollSnapshot device env s.store with ⟨st, tr⟩
    simp only [startPolling, hp, hps]
    rcases h with ⟨h1, h2⟩ | ⟨id2, h1, h2⟩
    · right
      exact ⟨s.nextTimerId, rfl, by simp [h2]⟩
    · rw [hp] at h1; cases h1
  · simp only [startPolling, hp]
    exact h

theorem timersOk_stopPolling (s : ServerState) (h : timersOk s) :
    timersOk (stopPolling s).1 := by
  rcases hp : s.pollingInterval with _ | id
  · simp only [stopPolling, hp]
    exact h
  · simp only [stopPolling, hp]
    rcases h with ⟨h1, h2⟩ | ⟨id2, h1, h2⟩
    · rw [hp] at h1; cases h1
    · rw [hp] at h1
      injection h1 with h1
      subst h1
      left
      exact ⟨rfl, by simp [h2]⟩

theorem timersOk_step (device : Option OnvifDevice) (timeout : Int)
    (s : ServerState) (i : Input) (h : timersOk s) :
    timersOk (step device timeout s i).1 := by
  cases i with
  | connect env =>
      simp only [step]
      split_ifs with h1
      · exact timersOk_startPolling device env _
          (timersOk_of_fields h rfl rfl)
      · exact timersOk_of_fields h rfl rfl
  | disconnect =>
      simp only [step]
      split_ifs with h1
      · exact timersOk_stopPolling _ (timersOk_of_fields h rfl rfl)
      · exact timersOk_of_fields h rfl rfl
  | snapshotRequest now env =>
      simp only [step]
      rcases hp : s.pollingInterval with _ | id
      · simp only [hp]
        have h1 : timersOk ({ s with
            pollingInterval := none
            lastSnapshotRequest := now } : ServerState) := by
          rcases h with ⟨ha, hb⟩ | ⟨id2, ha, hb⟩
          · exact Or.inl ⟨rfl, hb⟩
          · rw [hp] at ha; cases ha
        have h2 := timersOk_startPolling device env
          ({ s with
            pollingInterval := none
            lastSnapshotRequest := now } : ServerState) h1
        rcases hsp : startPolling device env
            ({ s with
              pollingInterval := none
              lastSnapshotRequest := now } : ServerState) with ⟨s2, tr⟩
        rw [hsp] at h2
        exact h2
      · simp only [hp]
        exact timersOk_of_fields h hp.symm rfl
  | timerTick id env =>
      simp only [step]
      split_ifs with h1
      · rcases hps : pollSnapshot device env s.store with ⟨st, tr⟩
        exact timersOk_of_fields h rfl rfl
      · exact h
  | inactivityCheck now =>
      simp only [step]
      split_ifs with h1
      · exact timersOk_stopPolling _ h
      · exact h

/-- Every reachable state has consistent timer bookkeeping. -/
theorem reachable_timersOk (device : Option OnvifDevice) (timeout : Int)
    (s : ServerState) (h : Reachable device timeout s) : timersOk s := by
  induction h with
  | init => exact Or.inl ⟨rfl, rfl⟩
  | @step t i h ih => exact timersOk_step device timeout t i ih

/-- C5.  Push variant: from Idle (zero clients, no timer registered), a
connect signal leaves the machine Polling (a recurring timer handle is
stored) and its handler performs exactly one immediate acquisition (one
acquisition marker in its trace); a following disconnect signal brings the
client count back to zero, returns the machine to Idle, clears the handle
and deregisters the interval timer, after which any timer callback is a
no-op: no further timer-driven acquisition occurs. -/
theorem connect_then_disconnect_stops (device : Option OnvifDevice)
    (timeout : Int) (s : ServerState) (env : AcquireEnv)
    (h0 : s.connectedClients = 0) (h1 : s.pollingInterval = none)
    (h2 : s.activeTimers = []) :
    ((step device timeout s (.connect env)).1.pollingInterval =
        some s.nextTimerId) ∧
    ((step device timeout s (.connect env)).2.count Event.acquireStart = 1) ∧
    ((step device timeout (step device timeout s (.connect env)).1
        .disconnect).1.connectedClients = 0) ∧
    ((step device timeout (step device timeout s (.connect env)).1
        .disconnect).1.pollingInterval = none) ∧
    ((step device timeout (step device timeout s (.connect env)).1
        .disconnect).1.activeTimers = []) ∧
    (∀ id env2, step device timeout
        (step device timeout (step device timeout s (.connect env)).1
          .disconnect).1 (.timerTick id env2) =
        ((step device timeout (step device timeout s (.connect env)).1
          .disconnect).1, [])) := by
  rcases s with ⟨c, pi, last, nid, ats, st⟩
  simp only at h0 h1 h2
  subst h0; subst h1; subst h2
  rcases hps : pollSnapshot device env st with ⟨st', tr⟩
  have hcount : tr.count Event.acquireStart = 1 := by
    have := (pollSnapshot_trace_count device env st).1
    rw [hps] at this
    exact this
  simp [step, startPolling, stopPolling, hps, hcount]

/-- Witness for C5: the concrete run from process start with both fetchers
failing. -/
theorem connect_then_disconnect_stops_witness :
    ((step none 30000 initialState
        (.connect ⟨⟨none, true⟩, none, true⟩)).1.pollingInterval =
      some initialState.nextTimerId) ∧
    ((step none 30000 initialState
        (.connect ⟨⟨none, true⟩, none, true⟩)).2.count Event.acquireStart = 1) ∧
    ((step none 30000 (step none 30000 initialState
        (.connect ⟨⟨none, true⟩, none, true⟩)).1
        .disconnect).1.connectedClients = 0) ∧
    ((step none 30000 (step none 30000 initialState
        (.connect ⟨⟨none, true⟩, none, true⟩)).1
        .disconnect).1.pollingInterval = none) ∧
    ((step none 30000 (step none 30000 initialState
        (.connect ⟨⟨none, true⟩, none, true⟩)).1
        .disconnect).1.activeTimers = []) ∧
    (∀ id env2, step none 30000
        (step none 30000 (step none 30000 initialState
          (.connect ⟨⟨none, true⟩, none, true⟩)).1
          .disconnect).1 (.timerTick id env2) =
        ((step none 30000 (step none 30000 initialState
          (.connect ⟨⟨none, true⟩, none, true⟩)).1
          .disconnect).1, [])) :=
  connect_then_disconnect_stops none 30000 initialState
    ⟨⟨none, true⟩, none, true⟩ rfl rfl rfl

/-- C6.  Push variant: when the machine is Polling (a handle `id` is
stored), the client count is zero and the last snapshot request is older
than the configured inactivity window, the next run of the periodic
inactivity check clears the handle (Idle) and deregisters the timer
(`clearInterval`); in a reachable state this leaves no live timer at
all. -/
theorem inactivity_check_stops_polling (device : Option OnvifDevice)
    (timeout : Int) (s : ServerState) (now : Int) (id : Nat)
    (hp : s.pollingInterval = some id) (hc : s.connectedClients = 0)
    (ht : now - s.lastSnapshotRequest > timeout) :
    (step device timeout s (.inactivityCheck now)).1.pollingInterval = none ∧
    (step device timeout s (.inactivityCheck now)).1.activeTimers =
      s.activeTimers.filter (fun t => t ≠ id) ∧
    (step device timeout s (.inactivityCheck now)).2 = [] ∧
    (Reachable device timeout s →
      (step device timeout s (.inactivityCheck now)).1.activeTimers = []) := by
  have hstep : step device timeout s (.inactivityCheck now) = stopPolling s := by
    simp only [step]
    rw [if_pos]
    exact ⟨by rw [hp]; rfl, ht, hc⟩
  have hstop : stopPolling s =
      ({ s with
          pollingInterval := none
          activeTimers := s.activeTimers.filter (fun t => t ≠ id) }, []) := by
    simp only [stopPolling, hp]
  refine ⟨?_, ?_, ?_, ?_⟩
  · rw [hstep, hstop]
  · rw [hstep, hstop]
  · rw [hstep, hstop]
  · intro hr
    have hok := reachable_timersOk device timeout s hr
    rcases hok with ⟨ha, _⟩ | ⟨id2, ha, hb⟩
    · rw [hp] at ha; cases ha
    · rw [hp] at ha
      injection ha with ha
      subst ha
      rw [hstep, hstop]
      simp [hb]

/-- Witness for C6: a Polling state with handle 5, zero clients, last
request at time 0, checked at time 40000 with a 30000 ms window. -/
theorem inactivity_check_stops_polling_witness :
    (step none 30000 ⟨0, some 5, 0, 6, [5], Store.empty⟩
        (.inactivityCheck 40000)).1.pollingInterval = none ∧
    (step none 30000 ⟨0, some 5, 0, 6, [5], Store.empty⟩
        (.inactivityCheck 40000)).1.activeTimers =
      [5].filter (fun t => t ≠ 5) ∧
    (step none 30000 ⟨0, some 5, 0, 6, [5], Store.empty⟩
        (.inactivityCheck 40000)).2 = [] ∧
    (Reachable none 30000 ⟨0, some 5, 0, 6, [5], Store.empty⟩ →
      (step none 30000 ⟨0, some 5, 0, 6, [5], Store.empty⟩
        (.inactivityCheck 40000)).1.activeTimers = []) :=
  inactivity_check_stops_polling none 30000
    ⟨0, some 5, 0, 6, [5], Store.empty⟩ 40000 5 rfl rfl (by decide)

/-- The response event is never the acquisition marker. -/
theorem responseEvent_ne_acquireStart (r : HttpResponse) :
    responseEvent r ≠ Event.acquireStart := by
  rcases r with ⟨st, hd, _ | _⟩ <;> simp [responseEvent]

/-- C7.  On-demand variant: each inbound snapshot request — on the fixed
`/snapshot.jpg` route and on the cache-busting `/snapshot/:name.jpg` route
alike — performs exactly one acquisition (one acquisition marker in the
handler's trace), the response is sent after the acquisition's events, and
the response is produced from the store as the acquisition left it. -/
theorem on_demand_one_acquire_per_request (device : Option OnvifDevice)
    (env : AcquireEnv) (s : Store) :
    ((onDemandSnapshotJpgRoute device env s).2.1.count Event.acquireStart = 1) ∧
    ((onDemandSnapshotJpgRoute device env s).2.1 =
      (getSnapshot device env s).trace ++
        [responseEvent (onDemandSnapshotJpgRoute device env s).2.2]) ∧
    ((onDemandSnapshotJpgRoute device env s).2.2 =
      serveSnapshot (onDemandSnapshotJpgRoute device env s).1) ∧
    (onDemandSnapshotNamedRoute device env s =
      onDemandSnapshotJpgRoute device env s) := by
  refine ⟨?_, rfl, rfl, rfl⟩
  have h1 := (pollSnapshot_trace_count device env s).2
  have h2 := responseEvent_ne_acquireStart
    (serveSnapshot (getSnapshot device env s).store)
  have h3 : List.count Event.acquireStart
      [responseEvent (serveSnapshot (getSnapshot device env s).store)] = 0 :=
    List.count_eq_zero.mpr (by simpa using Ne.symm h2)
  simp [onDemandSnapshotJpgRoute, List.count_append, h1, h3]

/-- C8.  A read of the Store before any write (the backing file has never
been written, or is unavailable) yields NotFound, deterministically (the
read is a pure function of the write history); `serveSnapshot` maps this
NotFound to the error response — HTTP 500 with the small JSON diagnostic
`{"error": "Snapshot not available"}` — and never to image bytes. -/
theorem read_before_write_notfound :
    Store.empty.read = none ∧
    serveSnapshot Store.empty =
      { status := 500, headers := [],
        body := .jsonError "Snapshot not available" } ∧
    (∀ b, (serveSnapshot Store.empty).body ≠ ResponseBody.imageBytes b) := by
  refine ⟨rfl, rfl, ?_⟩
  intro b
  simp [serveSnapshot, Store.empty, Store.read]

/-- C9.  In every reachable state the interested-client count is
non-negative; a connect signal increments it by one, a disconnect signal
sets it to `max 0 (count - 1)` (decrement clamped at zero), and a
disconnect received at count 0 leaves it at 0 (the handler is total: no
error is raised). -/
theorem clients_nonneg_and_clamped (device : Option OnvifDevice)
    (timeout : Int) (s : ServerState)
    (h : Reachable device timeout s) :
    0 ≤ s.connectedClients ∧
    (∀ env, (step device timeout s (.connect env)).1.connectedClients =
        s.connectedClients + 1) ∧
    ((step device timeout s .disconnect).1.connectedClients =
        max 0 (s.connectedClients - 1)) ∧
    (s.connectedClients = 0 →
        (step device timeout s .disconnect).1.connectedClients = 0) := by
  refine ⟨reachable_clients_nonneg device timeout s h,
    fun env => step_clients_connect device timeout s env,
    step_clients_disconnect device timeout s, ?_⟩
  intro h0
  rw [step_clients_disconnect, h0]
  omega

/-- Witness for C9 at the initial state. -/
theorem clients_nonneg_and_clamped_witness :
    0 ≤ initialState.connectedClients ∧
    (∀ env, (step none 30000 initialState
        (.connect env)).1.connectedClients =
        initialState.connectedClients + 1) ∧
    ((step none 30000 initialState .disconnect).1.connectedClients =
        max 0 (initialState.connectedClients - 1)) ∧
    (initialState.connectedClients = 0 →
        (step none 30000 initialState .disconnect).1.connectedClients = 0) :=
  clients_nonneg_and_clamped none 30000 initialState Reachable.init

/-- C10 amended.  Under serialized activations — each handler, including
the awaited initial acquisition inside `startPolling`, runs to completion
before the next input (the `step`/`Reachable` semantics) — at most one
recurring poll timer is live in every reachable state and it is exactly
the stored handle; `startPolling` invoked while a timer is registered
returns immediately (no acquisition event, state unchanged) and
`stopPolling` invoked while no timer is registered is likewise a no-op.
The unrestricted claim, over arbitrary interleavings, is refuted by the
counterexample `overlapping_requests_leak_second_timer`: activations
overlapping `startPolling`'s internal `await` both pass its guard and
register two live intervals. -/
theorem at_most_one_timer (device : Option OnvifDevice) (timeout : Int)
    (s : ServerState) (h : Reachable device timeout s) :
    s.activeTimers.length ≤ 1 ∧
    (∀ id, s.pollingInterval = some id → s.activeTimers = [id]) ∧
    (s.pollingInterval = none → s.activeTimers = []) ∧
    (∀ env, s.pollingInterval.isSome = true →
        startPolling device env s = (s, [])) ∧
    (s.pollingInterval = none → stopPolling s = (s, [])) := by
  have hok := reachable_timersOk device timeout s h
  refine ⟨?_, ?_, ?_, ?_, ?_⟩
  · rcases hok with ⟨_, ha⟩ | ⟨id, _, ha⟩ <;> simp [ha]
  · intro id hid
    rcases hok with ⟨hp, ha⟩ | ⟨id2, hp, ha⟩
    · rw [hid] at hp; cases hp
    · rw [hid] at hp
      injection hp with hp
      subst hp
      exact ha
  · intro hid
    rcases hok with ⟨hp, ha⟩ | ⟨id2, hp, ha⟩
    · exact ha
    · rw [hid] at hp; cases hp
  · intro env hsome
    rcases hp : s.pollingInterval with _ | id
    · rw [hp] at hsome; cases hsome
    · simp only [startPolling, hp]
  · intro hid
    simp only [stopPolling, hid]

/-- Witness for C10 at the initial state. -/
theorem at_most_one_timer_witness :
    initialState.activeTimers.length ≤ 1 ∧
    (∀ id, initialState.pollingInterval = some id →
        initialState.activeTimers = [id]) ∧
    (initialState.pollingInterval = none →
        initialState.activeTimers = []) ∧
    (∀ env, initialState.pollingInterval.isSome = true →
        startPolling none env initialState = (initialState, [])) ∧
    (initialState.pollingInterval = none →
        stopPolling initialState = (initialState, [])) :=
  at_most_one_timer none 30000 initialState Reachable.init

/-- Witness for C1 at the spec's concrete scenario: the direct fetch fails
(HTTP error), the ONVIF fetch (session present) returns a valid JPEG; the
acquisition resolves `true` and the store now holds the ONVIF bytes. -/
theorem acquire_true_iff_store_updated_witness :
    ((getSnapshot (some ⟨true⟩)
        ⟨⟨none, true⟩, some ("image/jpeg", [9]), true⟩ Store.empty).ok = true ↔
      (getSnapshotDirect ⟨none, true⟩ Store.empty).ok = true ∨
      (getSnapshotONVIF (some ⟨true⟩) ⟨some ("image/jpeg", [9]), true⟩
        Store.empty).ok = true) ∧
    ((getSnapshot (some ⟨true⟩)
        ⟨⟨none, true⟩, some ("image/jpeg", [9]), true⟩ Store.empty).store =
        Store.empty ↔
      (getSnapshot (some ⟨true⟩)
        ⟨⟨none, true⟩, some ("image/jpeg", [9]), true⟩ Store.empty).ok = false) ∧
    ((getSnapshot (some ⟨true⟩)
        ⟨⟨none, true⟩, some ("image/jpeg", [9]), true⟩ Store.empty).ok = true →
      ∃ b, (getSnapshot (some ⟨true⟩)
        ⟨⟨none, true⟩, some ("image/jpeg", [9]), true⟩ Store.empty).store =
          Store.empty.write b) ∧
    (pollSnapshot (some ⟨true⟩)
        ⟨⟨none, true⟩, some ("image/jpeg", [9]), true⟩ Store.empty).1 =
      (getSnapshot (some ⟨true⟩)
        ⟨⟨none, true⟩, some ("image/jpeg", [9]), true⟩ Store.empty).store :=
  acquire_true_iff_store_updated (some ⟨true⟩)
    ⟨⟨none, true⟩, some ("image/jpeg", [9]), true⟩ Store.empty

/-- Witness for the amended C3 at a concrete environment and store. -/
theorem onvif_no_device_immediate_failure_witness :
    getSnapshotONVIF none ⟨none, true⟩ Store.empty =
      ⟨false, Store.empty, [Event.onvifNoDevice]⟩ ∧
    Event.onvifProtocolOp ∉
      (getSnapshotONVIF none ⟨none, true⟩ Store.empty).trace ∧
    (∀ d : Option OnvifDevice, (initializeDevice false d).2 = some ⟨false⟩) :=
  onvif_no_device_immediate_failure ⟨none, true⟩ Store.empty

/-- Witness for the amended C4 at a concrete run where both writes
happen to be reachable (direct fails, ONVIF succeeds). -/
theorem store_writes_only_inside_fetchers_witness :
    (∀ w b, Event.storeWrite w b ∈ (getSnapshot (some ⟨true⟩)
        ⟨⟨none, true⟩, some ("image/jpeg", [9]), true⟩ Store.empty).trace →
      w = .direct ∨ w = .onvif) ∧
    (∀ w b, Event.storeWrite w b ∈ (pollSnapshot (some ⟨true⟩)
        ⟨⟨none, true⟩, some ("image/jpeg", [9]), true⟩ Store.empty).2 →
      w = .direct ∨ w = .onvif) ∧
    ((getSnapshot (some ⟨true⟩)
        ⟨⟨none, true⟩, some ("image/jpeg", [9]), true⟩ Store.empty).trace =
      .acquireStart :: (snapshotChain (some ⟨true⟩)
        ⟨⟨none, true⟩, some ("image/jpeg", [9]), true⟩ Store.empty).trace) :=
  store_writes_only_inside_fetchers (some ⟨true⟩)
    ⟨⟨none, true⟩, some ("image/jpeg", [9]), true⟩ Store.empty

/-- Witness for C7 at a concrete request with both fetchers failing. -/
theorem on_demand_one_acquire_per_request_witness :
    ((onDemandSnapshotJpgRoute none ⟨⟨none, true⟩, none, true⟩
        Store.empty).2.1.count Event.acquireStart = 1) ∧
    ((onDemandSnapshotJpgRoute none ⟨⟨none, true⟩, none, true⟩
        Store.empty).2.1 =
      (getSnapshot none ⟨⟨none, true⟩, none, true⟩ Store.empty).trace ++
        [responseEvent (onDemandSnapshotJpgRoute none
          ⟨⟨none, true⟩, none, true⟩ Store.empty).2.2]) ∧
    ((onDemandSnapshotJpgRoute none ⟨⟨none, true⟩, none, true⟩
        Store.empty).2.2 =
      serveSnapshot (onDemandSnapshotJpgRoute none
        ⟨⟨none, true⟩, none, true⟩ Store.empty).1) ∧
    (onDemandSnapshotNamedRoute none ⟨⟨none, true⟩, none, true⟩ Store.empty =
      onDemandSnapshotJpgRoute none ⟨⟨none, true⟩, none, true⟩ Store.empty) :=
  on_demand_one_acquire_per_request none ⟨⟨none, true⟩, none, true⟩ Store.empty

/-- Reachability in the event-loop refinement is preserved by running any
sequence of segments. -/
theorem asyncReachable_arun (device : Option OnvifDevice) (timeout : Int)
    (s : AsyncState) (l : List AsyncInput)
    (h : AsyncReachable device timeout s) :
    AsyncReachable device timeout (arun device timeout s l) := by
  induction l generalizing s with
  | nil => exact h
  | cons i rest ih => exact ih _ (AsyncReachable.step i h)

/-- C10 counterexample.  "At most one recurring poll timer is scheduled in
every reachable state, for any interleaving of connect signals and
snapshot requests" fails on the code: `startPolling` suspends at
`await pollSnapshot()` (part_000 line 166) between its
`if (pollingInterval)` guard (line 159) and the
`pollingInterval = setInterval(...)` assignment (line 169).  In the
concrete run `raceInputs`, two snapshot requests arrive during that
window; both see a null handle, pass the guard and suspend, and each
resumption registers its own interval — the reached state has two live
interval timers (`[1, 0]`), the stored handle is the second (`some 1`),
and the first interval (id 0) is leaked: `stopPolling` from that state
clears only the stored handle and leaves interval 0 live with the handle
already null. -/
theorem overlapping_requests_leak_second_timer :
    AsyncReachable none 30000 raceState ∧
    raceState.base.activeTimers = [1, 0] ∧
    ¬ raceState.base.activeTimers.length ≤ 1 ∧
    raceState.base.pollingInterval = some 1 ∧
    0 ∈ raceState.base.activeTimers ∧
    (stopPolling raceState.base).1.pollingInterval = none ∧
    (stopPolling raceState.base).1.activeTimers = [0] := by
  refine ⟨asyncReachable_arun none 30000 ⟨initialState, 0⟩ raceInputs
    AsyncReachable.init, ?_, ?_, ?_, ?_, ?_, ?_⟩ <;> decide

end OnvifSnapshot
